import Mathlib

/-!
Verification of the aservus-html-to-pdf conversion service.

The repository is a small Express/Puppeteer service exposing `POST /api/convert`.
It contains several incremental revisions of the same handler:

* `src/server.js` — the current handler (`upload.any()`, browser launched per
  request inside the `try`, URL validated after launch, `mapMargin` with
  20/30/50 px levels, all failures reported as HTTP 500).
* `src/unnamed/part_000` — a validation-first revision (`upload.single`,
  shared browser singleton, `marginMap` with 0.5in/1in/2in levels, temp-file
  staging for uploads, 400 responses for validation failures, error-message
  classification in the catch block).
* `src/unnamed/part_002` (second document, "revision 5") — like `server.js`
  but with a guarded settings parse and `mapMargin` with 15/25/50 px levels.
* `src/unnamed/part_002` (first document) — a placeholder revision whose
  `generateSimplePDF` emits a hand-written PDF string.

The embedding below translates the handler control flow of these revisions
into pure Lean functions.  External collaborators (Puppeteer, the filesystem,
`JSON.parse`) are modelled as an explicit environment of oracles: each
suspending step either succeeds or fails with a message, exactly mirroring the
`await`/`throw` structure of the source.
-/

namespace Aservus

/-- Loosely typed JavaScript value, as stored in the parsed `settings` object.
Multipart body fields (`type`, `url`, `settings`) always arrive as strings and
are modelled as `String` directly; `JSVal` is used where the source reads
fields of the user-supplied settings object, which can hold any JSON value or
be absent (`undefined`). -/
inductive JSVal where
  | undefined
  | null
  | str (s : String)
  | num (n : Int)
  | boolean (b : Bool)
deriving DecidableEq

/-- JavaScript truthiness, as used by `||` defaulting and `if (!x)` tests in
the source: `undefined`, `null`, the empty string, `0` and `false` are falsy,
everything else modelled here is truthy. -/
def truthy : JSVal → Bool
  | .undefined => false
  | .null => false
  | .str s => !(s == "")
  | .num n => !(n == 0)
  | .boolean b => b

/-- String coercion of a `JSVal`, as performed by JavaScript template-literal
interpolation in `generateSimplePDF`. -/
def showJSVal : JSVal → String
  | .undefined => "undefined"
  | .null => "null"
  | .str s => s
  | .num n => toString n
  | .boolean b => if b then "true" else "false"

/-- Decides whether character list `p` is an initial run of `l`. -/
def charListHasPre : List Char → List Char → Bool
  | _, [] => true
  | [], _ :: _ => false
  | c :: cs, d :: ds => c == d && charListHasPre cs ds

/-- Decides whether `n` occurs contiguously inside `h` (JavaScript
`String.prototype.includes`, used by the error classifier of the
validation-first revision). -/
def charListHasSub (h n : List Char) : Bool :=
  match h with
  | [] => n.isEmpty
  | _ :: t => charListHasPre h n || charListHasSub t n

/-- JavaScript `haystack.includes(needle)` on strings. -/
def strContains (haystack needle : String) : Bool :=
  charListHasSub haystack.data needle.data

/-- JavaScript `url.startsWith` applied to the literal `http`, from the URL check in
`src/server.js` line 56: true iff the first four characters are `http`. -/
def startsWithHttp (s : String) : Bool :=
  charListHasPre s.data "http".data

/-- The user-supplied conversion settings object: the fields the handlers
read.  A field the caller did not supply is `undefined`, matching property
access on a parsed JSON object. -/
structure Settings where
  pageSize : JSVal := .undefined
  orientation : JSVal := .undefined
  margins : JSVal := .undefined
  includeBackground : JSVal := .undefined
  waitForLoad : JSVal := .undefined
deriving DecidableEq

/-- Margin mapper of `src/server.js` lines 125–133: a `switch` on the
`margins` setting; `medium` falls through to the default `30px`. -/
def mapMargin (marginSetting : JSVal) : String :=
  if marginSetting = JSVal.str "none" then "0px"
  else if marginSetting = JSVal.str "small" then "20px"
  else if marginSetting = JSVal.str "large" then "50px"
  else "30px"

/-- Margin mapper of revision 5 (`src/unnamed/part_002` lines 300–308): same
shape as `mapMargin` but with 15px for `small` and 25px for the
`medium`/default branch. -/
def mapMarginRev5 (marginName : JSVal) : String :=
  if marginName = JSVal.str "none" then "0px"
  else if marginName = JSVal.str "small" then "15px"
  else if marginName = JSVal.str "large" then "50px"
  else "25px"

/-- Margin table of the validation-first revision (`src/unnamed/part_000`
lines 63–68): property lookup on the `marginMap` object, `none` when the key
is not one of the four level names. -/
def marginMap (k : JSVal) : Option String :=
  if k = JSVal.str "none" then some "0"
  else if k = JSVal.str "small" then some "0.5in"
  else if k = JSVal.str "medium" then some "1in"
  else if k = JSVal.str "large" then some "2in"
  else none

/-- The expression `marginMap[settings.margins] || marginMap.small` of
`src/unnamed/part_000` lines 169–172: a missing (or falsy) entry falls back
to the `small` value `0.5in`.  All stored values are non-empty strings, hence
truthy. -/
def marginLookup (k : JSVal) : String :=
  match marginMap k with
  | some v => if v == "" then "0.5in" else v
  | none => "0.5in"

/-- Page-size table of the validation-first revision (`src/unnamed/part_000`
lines 56–61), giving physical width × height for the four named sizes. -/
def pageSizeMap (k : JSVal) : Option (String × String) :=
  if k = JSVal.str "A4" then some ("8.27in", "11.69in")
  else if k = JSVal.str "Letter" then some ("8.5in", "11in")
  else if k = JSVal.str "Legal" then some ("8.5in", "14in")
  else if k = JSVal.str "Tabloid" then some ("11in", "17in")
  else none

/-- Four-sided margin record of the Puppeteer `pdf` options. -/
structure Margin where
  top : String
  right : String
  bottom : String
  left : String
deriving DecidableEq

/-- Puppeteer print options as built by `src/server.js` lines 84–94.
`printBackground` and `format` keep the JavaScript value semantics of
`x || default` (a truthy supplied value passes through unchanged). -/
structure PdfOptions where
  printBackground : JSVal
  landscape : Bool
  format : JSVal
  margin : Margin
deriving DecidableEq

/-- Settings translation of `src/server.js` lines 84–94:
`printBackground: settings.includeBackground || false`,
`landscape` set when the orientation setting strictly equals `landscape`,
`format` set to the page-size setting with fallback `A4`, and `mapMargin` applied identically to
all four sides. -/
def buildPdfOptions (settings : Settings) : PdfOptions :=
  { printBackground :=
      if truthy settings.includeBackground then settings.includeBackground
      else JSVal.boolean false
    landscape := settings.orientation = JSVal.str "landscape"
    format :=
      if truthy settings.pageSize then settings.pageSize else JSVal.str "A4"
    margin :=
      { top := mapMargin settings.margins
        right := mapMargin settings.margins
        bottom := mapMargin settings.margins
        left := mapMargin settings.margins } }

/-- Puppeteer print options as built by revision 5
(`src/unnamed/part_002` lines 259–269): `printBackground` is the strict
comparison `settings.includeBackground === true`. -/
structure PdfOptionsRev5 where
  printBackground : Bool
  landscape : Bool
  format : JSVal
  margin : Margin
deriving DecidableEq

/-- Settings translation of revision 5 (`src/unnamed/part_002`
lines 259–269). -/
def buildPdfOptionsRev5 (settings : Settings) : PdfOptionsRev5 :=
  { printBackground := settings.includeBackground = JSVal.boolean true
    landscape := settings.orientation = JSVal.str "landscape"
    format :=
      if truthy settings.pageSize then settings.pageSize else JSVal.str "A4"
    margin :=
      { top := mapMarginRev5 settings.margins
        right := mapMarginRev5 settings.margins
        bottom := mapMarginRev5 settings.margins
        left := mapMarginRev5 settings.margins } }

/-- Puppeteer print options as built by the validation-first revision
(`src/unnamed/part_000` lines 164–185), including the constant fields and the
explicit width/height override for recognized page sizes. -/
structure PdfOptionsV3 where
  format : JSVal
  landscape : Bool
  printBackground : JSVal
  margin : Margin
  scale : Nat
  displayHeaderFooter : Bool
  preferCSSPageSize : Bool
  timeoutMs : Nat
  width : JSVal
  height : JSVal
deriving DecidableEq

/-- Settings translation of the validation-first revision
(`src/unnamed/part_000` lines 164–185): builds the base options with
`marginLookup`, then, when `pageSizeMap` recognizes the page size, clears
`format` and sets explicit `width`/`height`. -/
def buildPdfOptionsV3 (settings : Settings) : PdfOptionsV3 :=
  let base : PdfOptionsV3 :=
    { format :=
        if truthy settings.pageSize then settings.pageSize else JSVal.str "A4"
      landscape := settings.orientation = JSVal.str "landscape"
      printBackground :=
        if truthy settings.includeBackground then settings.includeBackground
        else JSVal.boolean false
      margin :=
        { top := marginLookup settings.margins
          right := marginLookup settings.margins
          bottom := marginLookup settings.margins
          left := marginLookup settings.margins }
      scale := 1
      displayHeaderFooter := false
      preferCSSPageSize := true
      timeoutMs := 120000
      width := JSVal.undefined
      height := JSVal.undefined }
  match pageSizeMap settings.pageSize with
  | some (w, h) =>
      { base with format := JSVal.undefined
                  width := JSVal.str w
                  height := JSVal.str h }
  | none => base

/-- CSS reference pixel density: 96 pixels per inch.  Used to compare the
pixel-valued margin levels of `server.js` with the inch-valued levels the
specification names. -/
def cssPxPerInch : Nat := 96

/-- One uploaded multipart file part.  `buffer` is the uploaded content after
the UTF-8 decode (`file.buffer.toString` with the utf-8 codec), which the source performs
unconditionally before use; the decode itself is a platform primitive. -/
structure UploadedFile where
  fieldname : String
  buffer : String
deriving DecidableEq

/-- The settings body field as seen through the platform `JSON.parse`
(external to the repository): the field is absent or empty (then the fallback of
the source parses the literal empty-object text instead), or parses to a settings
object, or is malformed and makes `JSON.parse` throw a syntax error with the
given message. -/
inductive SettingsStr where
  | absent
  | wellFormed (s : Settings)
  | malformed (msg : String)
deriving DecidableEq

/-- The `JSON.parse` fallback expression of
`src/server.js` line 36 and `src/unnamed/part_000` line 109: an absent field
yields the empty object, a malformed field throws. -/
def parseSettings : SettingsStr → Except String Settings
  | .absent => .ok {}
  | .wellFormed s => .ok s
  | .malformed m => .error m

/-- The guarded settings parse of revision 5 (`src/unnamed/part_002`
lines 203–208): `let settings = \x7b\x7d; try ... catch` — a malformed field
logs a warning and keeps the defaults. -/
def parseSettingsGuarded : SettingsStr → Settings
  | .absent => {}
  | .wellFormed s => s
  | .malformed _ => {}

/-- One `POST /api/convert` request.  Multipart body fields are strings; an
absent field is the empty string (both are falsy, and the source only ever
tests them for falsiness or strict string equality). -/
structure Request where
  type : String
  url : String
  settingsStr : SettingsStr
  files : List UploadedFile
deriving DecidableEq

/-- Environment of external oracles: every suspending platform step of the
handlers, with the outcome the platform would return.  `none`/`true` means
the step succeeds; `some msg` or `false` means it throws/rejects with that
message.  The render oracles receive the translated options, mirroring the
data flow `page.pdf(pdfOptions)`. -/
structure Env where
  launchOk : Bool := true
  newPageOk : Bool := true
  setViewportOk : Bool := true
  goto : String → Option String := fun _ => none
  setContent : String → Option String := fun _ => none
  mkdirOk : Bool := true
  writeFileOk : Bool := true
  renderPdf : PdfOptions → Except String (List Nat) := fun _ => .ok []
  renderPdfRev5 : PdfOptionsRev5 → Except String (List Nat) := fun _ => .ok []
  renderPdfV3 : PdfOptionsV3 → Except String (List Nat) := fun _ => .ok []
  closeResult : Option String := none
  pageCloseResult : Option String := none
  unlinkResult : Option String := none
  tempName : String := "temp-0.html"

/-- Body of an HTTP response from the handler: raw PDF bytes on success, or
the JSON error object `\x7b error, details? \x7d`. -/
inductive Body where
  | pdfBytes (bytes : List Nat)
  | jsonError (error : String) (details : Option String)
deriving DecidableEq

/-- HTTP response as the handler commits it. -/
structure Response where
  status : Nat
  contentType : Option String
  body : Body
deriving DecidableEq

/-- Result of the `try` block body: the PDF bytes it would send, or the
message of the error it threw. -/
inductive StepResult where
  | ok (bytes : List Nat)
  | thrown (msg : String)
deriving DecidableEq

/-- The `try` block of `src/server.js` lines 34–105, step by step:
parse settings, launch the browser, open a page, load content (with the URL
validation of line 56 happening only here, after the launch), translate
settings, render.  Returns the result together with two facts the `finally`
block and the claims need: whether `puppeteer.launch` was invoked, and
whether `browser` ended up non-null (the launch resolved). -/
def tryConvert (env : Env) (req : Request) : StepResult × Bool × Bool :=
  match parseSettings req.settingsStr with
  | .error m => (.thrown m, false, false)
  | .ok settings =>
    if env.launchOk = false then
      (.thrown "Failed to launch the browser process", true, false)
    else if env.newPageOk = false then
      (.thrown "Failed to open a new page", true, true)
    else
      let loadResult : Option String :=
        if req.type = "url" then
          if req.url = "" ∨ startsWithHttp req.url = false then
            some "Invalid URL provided"
          else env.goto req.url
        else if req.type = "file" then
          match req.files with
          | [] => some "No HTML file uploaded"
          | f :: _ => env.setContent f.buffer
        else some "Invalid conversion type"
      match loadResult with
      | some m => (.thrown m, true, true)
      | none =>
        match env.renderPdf (buildPdfOptions settings) with
        | .error m => (.thrown m, true, true)
        | .ok bytes => (.ok bytes, true, true)

/-- Response committed by the success path (lines 100–105) or the catch
block (lines 107–115) of `src/server.js`: every thrown error becomes
a 500 status with body fields `error` = `Conversion failed` and `details` = the thrown message. -/
def respOf (r : StepResult) : Response :=
  match r with
  | .ok bytes =>
      { status := 200, contentType := some "application/pdf",
        body := .pdfBytes bytes }
  | .thrown m =>
      { status := 500, contentType := some "application/json",
        body := .jsonError "Conversion failed" (some m) }

/-- Observable outcome of one handler execution: the committed response, the
side effects on the rendering session, and any fault raised while releasing
it (which the source only lets surface after the response is committed). -/
structure Outcome where
  response : Response
  launched : Bool
  acquired : Bool
  closeCalls : Nat
  closeFault : Option String
deriving DecidableEq

/-- Full `POST /api/convert` handler of `src/server.js` lines 32–122:
`try` body, catch-to-JSON, and the `finally` block (lines 116–121) that
closes the browser exactly when it is non-null.  The catch block has already
committed the response when `finally` runs, so a failing `browser.close()`
is recorded as `closeFault` and cannot alter `response`. -/
def handleConvert (env : Env) (req : Request) : Outcome :=
  let t := tryConvert env req
  { response := respOf t.1
    launched := t.2.1
    acquired := t.2.2
    closeCalls := if t.2.2 then 1 else 0
    closeFault := if t.2.2 then env.closeResult else none }

/-- The `try` block of revision 5 (`src/unnamed/part_002` lines 199–279):
identical control flow to `tryConvert` except that the settings parse is
guarded and never throws, and the revision-5 settings translation is used. -/
def tryConvertRev5 (env : Env) (req : Request) : StepResult × Bool × Bool :=
  let settings := parseSettingsGuarded req.settingsStr
  if env.launchOk = false then
    (.thrown "Failed to launch the browser process", true, false)
  else if env.newPageOk = false then
    (.thrown "Failed to open a new page", true, true)
  else
    let loadResult : Option String :=
      if req.type = "url" then
        if req.url = "" ∨ startsWithHttp req.url = false then
          some "Invalid URL provided"
        else env.goto req.url
      else if req.type = "file" then
        match req.files with
        | [] => some "No HTML file uploaded"
        | f :: _ => env.setContent f.buffer
      else some "Invalid conversion type"
    match loadResult with
    | some m => (.thrown m, true, true)
    | none =>
      match env.renderPdfRev5 (buildPdfOptionsRev5 settings) with
      | .error m => (.thrown m, true, true)
      | .ok bytes => (.ok bytes, true, true)

/-- Full `POST /api/convert` handler of revision 5
(`src/unnamed/part_002` lines 197–297), with the same catch and finally
shape as `handleConvert`. -/
def handleConvertRev5 (env : Env) (req : Request) : Outcome :=
  let t := tryConvertRev5 env req
  { response := respOf t.1
    launched := t.2.1
    acquired := t.2.2
    closeCalls := if t.2.2 then 1 else 0
    closeFault := if t.2.2 then env.closeResult else none }

/-- Error-message classifier of the validation-first revision
(`src/unnamed/part_000` lines 203–214): substring matching on the thrown
message, first match wins, generic fallback `Conversion failed`. -/
def classifyError (msg : String) : String :=
  if strContains msg "net::ERR_NAME_NOT_RESOLVED" then
    "Website not found. Please check the URL and try again."
  else if strContains msg "net::ERR_CONNECTION_REFUSED" then
    "Cannot connect to website. The site may be down or blocking access."
  else if strContains msg "timeout" then
    "Conversion timed out. The website may be too large or loading slowly."
  else if strContains msg "invalid URL" then
    "Invalid URL. Please enter a valid website address."
  else "Conversion failed"

/-- Modelled from the spec: the behavior of the multipart middleware
`upload.single` with field name `htmlFile` used by `src/unnamed/part_000` line 103 (the
`multer` library itself is not part of this repository).  It admits at most
one file part, and only under the field name `htmlFile`; any other upload
pattern is rejected with an upload error before the handler runs. -/
def multerSingleCheck (files : List UploadedFile) : Bool :=
  files.all (fun f => f.fieldname == "htmlFile") && decide (files.length ≤ 1)

/-- Result of the `try` block of the validation-first revision: the bytes it
would send, an early `return res.status(...)` rejection, or a thrown
error. -/
inductive TryResultV3 where
  | ok (bytes : List Nat)
  | reject (status : Nat) (errMsg : String)
  | thrown (msg : String)
deriving DecidableEq

/-- The `try` block of the validation-first revision
(`src/unnamed/part_000` lines 107–198): parse settings (unguarded, line 109),
validate (lines 112–118, early 400 returns before any session work), launch
the shared browser, open a page, set the viewport, stage the upload to a
temporary file in file mode (the temp path is assigned before the directory
and file writes, so a failing write still leaves an artifact to delete),
navigate, translate settings, render.  Returns the result together with
whether a page was acquired and whether a temp-file path was assigned. -/
def tryConvertV3 (env : Env) (req : Request) : TryResultV3 × Bool × Bool :=
  match parseSettings req.settingsStr with
  | .error m => (.thrown m, false, false)
  | .ok settings =>
    if req.type = "" then
      (.reject 400 "Missing required parameters", false, false)
    else if req.type = "url" ∧ req.url = "" then
      (.reject 400 "Missing required parameters", false, false)
    else if req.type = "file" ∧ req.files = [] then
      (.reject 400 "No HTML file uploaded", false, false)
    else if env.launchOk = false then
      (.thrown "Failed to launch the browser process", false, false)
    else if env.newPageOk = false then
      (.thrown "Failed to open a new page", false, false)
    else if env.setViewportOk = false then
      (.thrown "Failed to set the viewport", true, false)
    else
      let afterLoad : Option String × Bool :=
        if req.type = "file" then
          match req.files with
          | [] => (some "No HTML file uploaded", false)
          | _ :: _ =>
            if env.mkdirOk = false then (some "mkdir failed", true)
            else if env.writeFileOk = false then (some "write failed", true)
            else (env.goto ("file://" ++ env.tempName), true)
        else (env.goto req.url, false)
      match afterLoad with
      | (some m, temp) => (.thrown m, true, temp)
      | (none, temp) =>
        match env.renderPdfV3 (buildPdfOptionsV3 settings) with
        | .error m => (.thrown m, true, temp)
        | .ok bytes => (.ok bytes, true, temp)

/-- Response committed by the validation-first revision: 200 with the bytes,
the early 400 rejections with a bare `\x7b error \x7d` body, or 500 with the
classified user-facing message (lines 200–216); the raw message and stack
are only logged, never placed in the body. -/
def respOfV3 (r : TryResultV3) : Response :=
  match r with
  | .ok bytes =>
      { status := 200, contentType := some "application/pdf",
        body := .pdfBytes bytes }
  | .reject st m =>
      { status := st, contentType := some "application/json",
        body := .jsonError m none }
  | .thrown m =>
      { status := 500, contentType := some "application/json",
        body := .jsonError (classifyError m) none }

/-- Observable outcome of one execution of the validation-first handler:
committed response, page/temp-file side effects, and the faults raised while
releasing them (both are caught and logged by the source: `page.close()`
carries `.catch(console.error)` and the unlink sits in its own
`try`/`catch`). -/
structure OutcomeV3 where
  response : Response
  pageAcquired : Bool
  tempCreated : Bool
  pageCloseCalls : Nat
  unlinkCalls : Nat
  pageCloseFault : Option String
  unlinkFault : Option String
deriving DecidableEq

/-- Full `POST /api/convert` handler of the validation-first revision
(`src/unnamed/part_000` lines 103–232): multipart middleware check, `try`
body, catch-with-classification, and the `finally` block (lines 218–231)
that closes the page exactly when it is non-null and unlinks the temp file
exactly when a path was assigned, swallowing release failures. -/
def handleConvertV3 (env : Env) (req : Request) : OutcomeV3 :=
  if multerSingleCheck req.files = false then
    { response :=
        { status := 400, contentType := some "application/json",
          body := .jsonError "File upload error: Unexpected field" none }
      pageAcquired := false
      tempCreated := false
      pageCloseCalls := 0
      unlinkCalls := 0
      pageCloseFault := none
      unlinkFault := none }
  else
    let t := tryConvertV3 env req
    { response := respOfV3 t.1
      pageAcquired := t.2.1
      tempCreated := t.2.2
      pageCloseCalls := if t.2.1 then 1 else 0
      unlinkCalls := if t.2.2 then 1 else 0
      pageCloseFault := if t.2.1 then env.pageCloseResult else none
      unlinkFault := if t.2.2 then env.unlinkResult else none }

/-- The settings translation as a function of the settings field alone, as
used on the success paths of the handlers (§4.4 of the specification calls
this the settings translator). -/
def optionsOf (req : Request) : PdfOptions :=
  buildPdfOptions (parseSettingsGuarded req.settingsStr)

/-- The placeholder PDF generator of the demo revision
(`src/unnamed/part_002`, first document, lines 79–159): a template literal
interpolating the first 50 characters of the content, the three settings
names (with their `|| default` fallbacks, coerced to strings), and the
current date, into a hand-written PDF document.  `dateStr` stands for the
platform `new Date().toLocaleDateString()`. -/
def generateSimplePDF (content : String) (settings : Settings)
    (dateStr : String) : String :=
  let pageSize :=
    if truthy settings.pageSize then showJSVal settings.pageSize else "A4"
  let orientation :=
    if truthy settings.orientation then showJSVal settings.orientation
    else "portrait"
  let margins :=
    if truthy settings.margins then showJSVal settings.margins else "small"
  "%PDF-1.4" ++
  ("\n1 0 obj\n<<\n/Type /Catalog\n/Pages 2 0 R\n>>\nendobj\n2 0 obj\n<<\n/Type /Pages\n/Kids [3 0 R]\n/Count 1\n>>\nendobj\n3 0 obj\n<<\n/Type /Page\n/Parent 2 0 R\n/MediaBox [0 0 612 792]\n/Contents 4 0 R\n/Resources <<\n/Font <<\n/F1 5 0 R\n>>\n>>\n>>\nendobj\n4 0 obj\n<<\n/Length 200\n>>\nstream\nBT\n/F1 24 Tf\n72 700 Td\n(Aservus HTML to PDF Converter) Tj\n0 -40 Td\n/F1 16 Tf\n(Successfully Converted!) Tj\n0 -30 Td\n/F1 12 Tf\n(Content: " ++
  (content.take 50 ++
  ("...) Tj\n0 -20 Td\n(Settings: " ++
  (pageSize ++
  (", " ++
  (orientation ++
  (", " ++
  (margins ++
  (") Tj\n0 -20 Td\n(Date: " ++
  (dateStr ++
  (") Tj\n0 -20 Td\n(Note: This is a demo PDF. Full version coming soon!) Tj\nET\nendstream\nendobj\n5 0 obj\n<<\n/Type /Font\n/Subtype /Type1\n/BaseFont /Helvetica\n>>\nendobj\nxref\n0 6\n0000000000 65535 f \n0000000010 00000 n \n0000000053 00000 n \n0000000102 00000 n \n0000000259 00000 n \n0000000465 00000 n \ntrailer\n<<\n/Size 6\n/Root 1 0 R\n>>\nstartxref\n612\n%%EOF")))))))))))

/-- The PDF magic header bytes `%PDF-`. -/
def pdfMagic : List Nat := [37, 80, 68, 70, 45]

/-- A byte sequence begins with the PDF magic header `%PDF-`. -/
def hasPdfMagic (bytes : List Nat) : Prop := bytes.take 5 = pdfMagic

instance (bytes : List Nat) : Decidable (hasPdfMagic bytes) := by
  unfold hasPdfMagic; exact inferInstance

end Aservus



namespace Aservus

/-! ### Concrete fixtures used by witnesses and counterexamples -/

/-- Environment in which every platform step succeeds and the rendering
engine returns a well-formed PDF (its bytes begin with the magic header, as
the engine contract in the specification promises). -/
def envAllOk : Env :=
  { renderPdf := fun _ => .ok pdfMagic
    renderPdfRev5 := fun _ => .ok pdfMagic
    renderPdfV3 := fun _ => .ok pdfMagic }

/-- A url-mode request whose URL has a non-HTTP scheme. -/
def reqFtp : Request :=
  { type := "url", url := "ftp://x", settingsStr := .absent, files := [] }

/-- A well-formed url-mode request with default settings. -/
def reqUrlOk : Request :=
  { type := "url", url := "http://localhost/", settingsStr := .absent,
    files := [] }

/-- A url-mode request whose settings field is a string that is not valid
JSON. -/
def reqMalformed : Request :=
  { type := "url", url := "http://localhost/",
    settingsStr := .malformed "Unexpected token x in JSON at position 0",
    files := [] }

/-- A request with no conversion type at all. -/
def reqMissingType : Request :=
  { type := "", url := "", settingsStr := .absent, files := [] }

/-- A file-mode request carrying no uploaded file. -/
def reqFileNoUpload : Request :=
  { type := "file", url := "", settingsStr := .absent, files := [] }

/-- A file-mode request carrying two uploaded files under ad-hoc field
names. -/
def reqTwoFiles : Request :=
  { type := "file", url := "", settingsStr := .absent,
    files := [{ fieldname := "htmlFile0", buffer := "<h1>a</h1>" },
              { fieldname := "htmlFile1", buffer := "<h1>b</h1>" }] }

/-- The fixed text the dummy-PDF revision places in its success body
(`src/unnamed/part_001` lines 48 and 56: the argument of `Buffer.from`). -/
def placeholderText : String :=
  "This is a placeholder PDF. Real PDF conversion will be added soon."

/-- Byte content of an ASCII string, as produced by `Buffer.from` on the
placeholder text (every character of which is ASCII, so each byte is the
character code). -/
def asciiBytes (s : String) : List Nat :=
  s.data.map (fun c => c.toNat)

/-- Full `POST /api/convert` handler of the dummy-PDF revision
(`src/unnamed/part_001` lines 39–70): single-field multipart middleware,
unguarded settings parse (line 42, a malformed field throws into the catch
at line 66 which answers 500 with the raw message), then the url branch
(lines 46–53) and the file branch (lines 54–61) both answer 200 with
content type application/pdf and the fixed placeholder text as body; any
other request answers 400.  No browser is involved in this revision. -/
def handleConvertRev2 (req : Request) : Response :=
  if multerSingleCheck req.files = false then
    { status := 400, contentType := some "application/json",
      body := .jsonError "File upload error: Unexpected field" none }
  else
    match parseSettings req.settingsStr with
    | .error m =>
        { status := 500, contentType := some "application/json",
          body := .jsonError m none }
    | .ok _ =>
        if req.type = "url" then
          { status := 200, contentType := some "application/pdf",
            body := .pdfBytes (asciiBytes placeholderText) }
        else if req.type = "file" ∧ ¬ req.files = [] then
          { status := 200, contentType := some "application/pdf",
            body := .pdfBytes (asciiBytes placeholderText) }
        else
          { status := 400, contentType := some "application/json",
            body := .jsonError "Invalid request" none }

/-! ### Claims -/

/-- C1 (counterexample).  The claim says a url-mode request with a non-HTTP
URL fails with the invalid-URL error before any rendering session is
acquired, with no browser launch.  In `src/server.js` the launch (line 42)
and page creation precede the URL check (line 56): on the request with url
`ftp://x` the handler launches the browser (`launched = true`), acquires it
(`acquired = true`), and only then throws, answering 500. -/
theorem C1_counterexample :
    (handleConvert envAllOk reqFtp).launched = true ∧
    (handleConvert envAllOk reqFtp).acquired = true ∧
    (handleConvert envAllOk reqFtp).response.status = 500 ∧
    (handleConvert envAllOk reqFtp).response.body =
      Body.jsonError "Conversion failed" (some "Invalid URL provided") := by
  decide

/-- C1 (amended).  For every url-mode request whose url is absent, empty, or
does not begin with http, the handler of `src/server.js` does fail with the
invalid-URL error — but only after the browser has been launched and
acquired; the session is then closed by the finally block, and the error is
reported as a 500 response with the invalid-URL message in `details`. -/
theorem C1_amended (env : Env) (req : Request) (s : Settings)
    (hp : parseSettings req.settingsStr = .ok s)
    (ht : req.type = "url")
    (hu : req.url = "" ∨ startsWithHttp req.url = false)
    (hl : env.launchOk = true) (hn : env.newPageOk = true) :
    (handleConvert env req).launched = true ∧
    (handleConvert env req).acquired = true ∧
    (handleConvert env req).closeCalls = 1 ∧
    (handleConvert env req).response =
      { status := 500, contentType := some "application/json",
        body := .jsonError "Conversion failed" (some "Invalid URL provided") } := by
  simp [handleConvert, tryConvert, hp, hl, hn, ht, hu, respOf]

/-- C1 (witness). -/
theorem C1_witness :
    parseSettings reqFtp.settingsStr = .ok {} ∧
    reqFtp.type = "url" ∧
    (reqFtp.url = "" ∨ startsWithHttp reqFtp.url = false) ∧
    envAllOk.launchOk = true ∧ envAllOk.newPageOk = true ∧
    (handleConvert envAllOk reqFtp).closeCalls = 1 :=
  ⟨rfl, rfl, Or.inr (by decide), rfl, rfl,
    (C1_amended envAllOk reqFtp {} rfl rfl (Or.inr (by decide)) rfl rfl).2.2.1⟩

/-- C2.  Release discipline, over all fault injections: in `src/server.js`,
whenever a session was acquired the browser is closed exactly once and
otherwise not at all, and the committed response does not depend on whether
the close succeeds; in the validation-first revision, whenever a page was
acquired it is closed exactly once, whenever a temp file path was assigned
the file is unlinked exactly once, and the committed response does not
depend on the close or unlink results — so a release failure never replaces
the original error reported to the caller. -/
theorem C2_release_exactly_once (env : Env) (req : Request)
    (c u : Option String) :
    ((handleConvert env req).acquired = true →
      (handleConvert env req).closeCalls = 1) ∧
    ((handleConvert env req).acquired = false →
      (handleConvert env req).closeCalls = 0) ∧
    (handleConvert { env with closeResult := c } req).response =
      (handleConvert env req).response ∧
    ((handleConvertV3 env req).pageAcquired = true →
      (handleConvertV3 env req).pageCloseCalls = 1) ∧
    ((handleConvertV3 env req).tempCreated = true →
      (handleConvertV3 env req).unlinkCalls = 1) ∧
    (handleConvertV3 { env with pageCloseResult := c, unlinkResult := u } req).response =
      (handleConvertV3 env req).response := by
  have h1 : tryConvert { env with closeResult := c } req = tryConvert env req := by
    cases env; rfl
  have h2 : tryConvertV3 { env with pageCloseResult := c, unlinkResult := u } req =
      tryConvertV3 env req := by
    cases env; rfl
  refine ⟨?_, ?_, ?_, ?_, ?_, ?_⟩
  · intro h; simp [handleConvert] at h ⊢; rw [h]
  · intro h; simp [handleConvert] at h ⊢; rw [h]
  · simp [handleConvert, h1]
  · intro h
    unfold handleConvertV3 at h ⊢
    split at h
    · simp at h
    · rename_i hm
      rw [if_neg hm]
      simp at h ⊢
      rw [h]
  · intro h
    unfold handleConvertV3 at h ⊢
    split at h
    · simp at h
    · rename_i hm
      rw [if_neg hm]
      simp at h ⊢
      rw [h]
  · unfold handleConvertV3
    split
    · rfl
    · simp only [h2]

/-- C2 (witness): a concrete execution that acquired a session is closed
exactly once. -/
theorem C2_witness :
    (handleConvert envAllOk reqFtp).acquired = true ∧
    (handleConvert envAllOk reqFtp).closeCalls = 1 :=
  ⟨by decide, (C2_release_exactly_once envAllOk reqFtp none none).1 (by decide)⟩

/-- C3 (counterexample).  The claim says the named margin levels map to
about 0.5 inch, 1 inch and 2 inches, identically on every code path.  At the
CSS density of 96 px per inch, `src/server.js` maps `small` to 20px (not the
48px of half an inch), `medium` to 30px (not 96px), `large` to 50px (not
192px); and the three revisions disagree on `small` (20px vs 15px vs 0.5in),
so the mapping is not the same on every code path. -/
theorem C3_counterexample :
    mapMargin (JSVal.str "small") = "20px" ∧
    mapMarginRev5 (JSVal.str "small") = "15px" ∧
    marginLookup (JSVal.str "small") = "0.5in" ∧
    ¬ mapMargin (JSVal.str "small") = mapMarginRev5 (JSVal.str "small") ∧
    ¬ (20 * 2 = cssPxPerInch) ∧
    mapMargin (JSVal.str "medium") = "30px" ∧ ¬ (30 = cssPxPerInch) ∧
    mapMargin (JSVal.str "large") = "50px" ∧ ¬ (50 = 2 * cssPxPerInch) := by
  decide

/-- C3 (amended).  Every revision maps each named margin level to a fixed
offset applied identically to all four sides, with `none` mapping to zero on
every path; but the per-level values differ by revision: `src/server.js`
uses 20px/30px/50px for small/medium/large, revision 5 uses 15px/25px/50px,
and only the validation-first revision uses the 0.5in/1in/2in values the
claim names. -/
theorem C3_amended :
    (∀ s : Settings, (buildPdfOptions s).margin =
      { top := mapMargin s.margins, right := mapMargin s.margins,
        bottom := mapMargin s.margins, left := mapMargin s.margins }) ∧
    (∀ s : Settings, (buildPdfOptionsRev5 s).margin =
      { top := mapMarginRev5 s.margins, right := mapMarginRev5 s.margins,
        bottom := mapMarginRev5 s.margins, left := mapMarginRev5 s.margins }) ∧
    (∀ s : Settings, (buildPdfOptionsV3 s).margin =
      { top := marginLookup s.margins, right := marginLookup s.margins,
        bottom := marginLookup s.margins, left := marginLookup s.margins }) ∧
    mapMargin (JSVal.str "none") = "0px" ∧ mapMargin (JSVal.str "small") = "20px" ∧
    mapMargin (JSVal.str "medium") = "30px" ∧ mapMargin (JSVal.str "large") = "50px" ∧
    mapMarginRev5 (JSVal.str "none") = "0px" ∧ mapMarginRev5 (JSVal.str "small") = "15px" ∧
    mapMarginRev5 (JSVal.str "medium") = "25px" ∧ mapMarginRev5 (JSVal.str "large") = "50px" ∧
    marginLookup (JSVal.str "none") = "0" ∧ marginLookup (JSVal.str "small") = "0.5in" ∧
    marginLookup (JSVal.str "medium") = "1in" ∧ marginLookup (JSVal.str "large") = "2in" := by
  refine ⟨fun s => rfl, fun s => rfl, fun s => ?_,
    ?_, ?_, ?_, ?_, ?_, ?_, ?_, ?_, ?_, ?_, ?_, ?_⟩
  · unfold buildPdfOptionsV3
    rcases h : pageSizeMap s.pageSize with _ | ⟨w, hgt⟩ <;> simp [h]
  all_goals decide

/-- C4 (counterexample).  The claim says a settings string that is not valid
JSON never fails the request and the handler proceeds with defaults.  In
`src/server.js` the unguarded parse at line 36 throws into the generic
catch: the same request answers 200 with default settings when the settings
field is absent, but 500 — without ever launching the browser — when the
settings field is malformed. -/
theorem C4_counterexample :
    (handleConvert envAllOk reqMalformed).response.status = 500 ∧
    (handleConvert envAllOk reqMalformed).launched = false ∧
    (handleConvert envAllOk reqMalformed).response.body =
      Body.jsonError "Conversion failed"
        (some "Unexpected token x in JSON at position 0") ∧
    (handleConvert envAllOk reqUrlOk).response.status = 200 := by
  decide

/-- C4 (amended).  In `src/server.js` a malformed settings string fails the
request before any launch, with the generic 500 conversion-failed body
carrying the parse message; the silent fallback to default settings the
claim describes holds only in revision 5, whose handler treats a malformed
settings field exactly like an absent one. -/
theorem C4_amended (env : Env) (req : Request) (m : String)
    (hs : req.settingsStr = .malformed m) :
    (handleConvert env req).response =
      { status := 500, contentType := some "application/json",
        body := .jsonError "Conversion failed" (some m) } ∧
    (handleConvert env req).launched = false ∧
    (handleConvert env req).acquired = false ∧
    handleConvertRev5 env req =
      handleConvertRev5 env { req with settingsStr := .absent } := by
  obtain ⟨t, u, ss, fs⟩ := req
  simp only at hs
  subst hs
  exact ⟨rfl, rfl, rfl, rfl⟩

/-- C4 (witness). -/
theorem C4_witness :
    reqMalformed.settingsStr =
      .malformed "Unexpected token x in JSON at position 0" ∧
    (handleConvert envAllOk reqMalformed).launched = false :=
  ⟨rfl, (C4_amended envAllOk reqMalformed
    "Unexpected token x in JSON at position 0" rfl).2.1⟩

/-- C5 (counterexample).  The claim says validation errors answer 400.  In
`src/server.js` every failure — including the invalid-URL and missing-file
validation errors — is answered by the single catch block with status 500,
never 400. -/
theorem C5_counterexample :
    (handleConvert envAllOk reqFtp).response.status = 500 ∧
    ¬ (handleConvert envAllOk reqFtp).response.status = 400 ∧
    (handleConvert envAllOk reqFileNoUpload).response =
      { status := 500, contentType := some "application/json",
        body := Body.jsonError "Conversion failed"
          (some "No HTML file uploaded") } := by
  decide

/-- C5 (amended).  In `src/server.js` every failing request answers 500 with
the structured body carrying the error message (never a stack trace, and
success is the only 200); the 400-for-validation behavior holds only in the
validation-first revision, which answers 400 for missing parameters and
missing uploads and maps thrown errors to one of five category-specific
human-readable messages. -/
theorem C5_amended (env : Env) (req : Request) :
    ((handleConvert env req).response.status = 200 ∨
      ((handleConvert env req).response.status = 500 ∧
        ∃ d, (handleConvert env req).response.body =
          Body.jsonError "Conversion failed" (some d))) ∧
    (handleConvertV3 envAllOk reqMissingType).response =
      { status := 400, contentType := some "application/json",
        body := .jsonError "Missing required parameters" none } ∧
    (handleConvertV3 envAllOk reqFileNoUpload).response =
      { status := 400, contentType := some "application/json",
        body := .jsonError "No HTML file uploaded" none } ∧
    (∀ m, classifyError m = "Website not found. Please check the URL and try again." ∨
      classifyError m = "Cannot connect to website. The site may be down or blocking access." ∨
      classifyError m = "Conversion timed out. The website may be too large or loading slowly." ∨
      classifyError m = "Invalid URL. Please enter a valid website address." ∨
      classifyError m = "Conversion failed") := by
  refine ⟨?_, by decide, by decide, ?_⟩
  · rcases h : (tryConvert env req).1 with bytes | m
    · exact Or.inl (by simp [handleConvert, h, respOf])
    · exact Or.inr (by simp [handleConvert, h, respOf])
  · intro m
    unfold classifyError
    split_ifs <;> simp

/-- C6 (counterexample).  The claim says every successful conversion answers
a body whose first bytes are the PDF magic header.  In the dummy-PDF
revision it cites (`src/unnamed/part_001` lines 46–61), a successful url
conversion answers 200 with content type application/pdf, but the body is
the fixed placeholder text, which is non-empty and does not begin with the
magic header. -/
theorem C6_counterexample :
    (handleConvertRev2 reqUrlOk).status = 200 ∧
    (handleConvertRev2 reqUrlOk).contentType = some "application/pdf" ∧
    (handleConvertRev2 reqUrlOk).body =
      Body.pdfBytes (asciiBytes placeholderText) ∧
    ¬ asciiBytes placeholderText = [] ∧
    ¬ hasPdfMagic (asciiBytes placeholderText) := by
  decide

/-- A successful run of the `src/server.js` try block can only have obtained
its bytes from the rendering engine: whatever the request (url mode or file
mode) and the fault environment, a result of 200-class success carries bytes
the render oracle returned for some options record. -/
theorem tryConvert_ok_bytes (env : Env) (req : Request) (bytes : List Nat)
    (h : (tryConvert env req).1 = StepResult.ok bytes) :
    ∃ o, env.renderPdf o = Except.ok bytes := by
  unfold tryConvert at h
  repeat' split at h
  all_goals try simp at h
  all_goals repeat' split at h
  all_goals try simp at h
  all_goals subst h
  all_goals exact ⟨_, by assumption⟩

/-- C6 (amended).  In the deployed `src/server.js` handler, every successful
conversion — url mode and file mode alike — answers status 200 with content
type application/pdf and a body that is exactly the byte output of the
rendering engine, which under the engine contract the specification states
(modelled as the hypothesis on the render oracle, the engine being external
to the repository) is non-empty and begins with the PDF magic header; the
demo-revision generator `generateSimplePDF` also always emits a string
beginning with the magic header.  The dummy-PDF revision alone violates the
magic-header part, as the counterexample shows. -/
theorem C6_amended (env : Env) (req : Request)
    (heng : ∀ o b, env.renderPdf o = .ok b → ¬ b = [] ∧ hasPdfMagic b)
    (hs : (handleConvert env req).response.status = 200) :
    (handleConvert env req).response.contentType = some "application/pdf" ∧
    (∃ bytes, (handleConvert env req).response.body = Body.pdfBytes bytes ∧
      ¬ bytes = [] ∧ hasPdfMagic bytes) ∧
    (∀ c st d, ∃ r, generateSimplePDF c st d = "%PDF-" ++ r) := by
  rcases hrq : (tryConvert env req).1 with bytes | m
  · obtain ⟨o, ho⟩ := tryConvert_ok_bytes env req bytes hrq
    have hprop := heng o bytes ho
    refine ⟨?_, ⟨bytes, ?_, hprop.1, hprop.2⟩, ?_⟩
    · simp [handleConvert, hrq, respOf]
    · simp [handleConvert, hrq, respOf]
    · intro c st d
      have assoc : ∀ a b c2 : String, a ++ b ++ c2 = a ++ (b ++ c2) := by
        intro a b c2
        cases a; cases b; cases c2
        show String.append (String.append _ _) _ =
          String.append _ (String.append _ _)
        simp [String.append]
      have tail : ∃ r, generateSimplePDF c st d = "%PDF-1.4" ++ r := by
        unfold generateSimplePDF
        exact ⟨_, rfl⟩
      obtain ⟨r, hr2⟩ := tail
      refine ⟨"1.4" ++ r, ?_⟩
      rw [hr2, show ("%PDF-1.4" : String) = "%PDF-" ++ "1.4" from rfl, assoc]
  · exfalso
    simp [handleConvert, hrq, respOf] at hs

/-- C6 (witness): both a file-mode success (two files under ad-hoc field
names) and a url-mode success exercise the amended theorem under the
concrete all-success environment, whose render oracle satisfies the engine
contract. -/
theorem C6_witness :
    (∀ o b, envAllOk.renderPdf o = .ok b → ¬ b = [] ∧ hasPdfMagic b) ∧
    (handleConvert envAllOk reqTwoFiles).response.status = 200 ∧
    (handleConvert envAllOk reqTwoFiles).response.contentType =
      some "application/pdf" ∧
    (handleConvert envAllOk reqUrlOk).response.status = 200 ∧
    (handleConvert envAllOk reqUrlOk).response.contentType =
      some "application/pdf" := by
  have hengOk : ∀ o b, envAllOk.renderPdf o = .ok b →
      ¬ b = [] ∧ hasPdfMagic b := by
    intro o b hb
    have hb2 : Except.ok pdfMagic = Except.ok b := hb
    injection hb2 with hbb
    subst hbb
    exact ⟨by decide, by decide⟩
  have h1 := C6_amended envAllOk reqTwoFiles hengOk (by decide)
  have h2 := C6_amended envAllOk reqUrlOk hengOk (by decide)
  exact ⟨hengOk, by decide, h1.1, by decide, h2.1⟩

/-- C7 (counterexample).  The claim says unrecognized page sizes fall back
to A4 and unrecognized margins fall back to small.  In `src/server.js` a
truthy unrecognized page size (here B5) passes through unchanged, and an
absent or unrecognized margin level maps to 30px — the medium value, not the
20px small value. -/
theorem C7_counterexample :
    (buildPdfOptions { pageSize := JSVal.str "B5" }).format = JSVal.str "B5" ∧
    ¬ (buildPdfOptions { pageSize := JSVal.str "B5" }).format = JSVal.str "A4" ∧
    mapMargin JSVal.undefined = "30px" ∧
    mapMargin (JSVal.str "bogus") = "30px" ∧
    ¬ mapMargin JSVal.undefined = mapMargin (JSVal.str "small") := by
  decide

/-- C7 (amended).  In `src/server.js`: the page size falls back to A4 only
when the supplied value is falsy (absent, empty, null), while a truthy
unrecognized name is passed through to the renderer unchanged; the
orientation falls back to portrait for every value other than the exact
string landscape; and the margins fall back to the 30px medium offset for
absent or unrecognized values (the small fallback the claim names appears
only in the lookup of the validation-first revision). -/
theorem C7_amended :
    (∀ s : Settings, truthy s.pageSize = false →
      (buildPdfOptions s).format = JSVal.str "A4") ∧
    (∀ s : Settings, truthy s.pageSize = true →
      (buildPdfOptions s).format = s.pageSize) ∧
    (∀ s : Settings, ¬ s.orientation = JSVal.str "landscape" →
      (buildPdfOptions s).landscape = false) ∧
    (∀ v : JSVal, ¬ v = JSVal.str "none" → ¬ v = JSVal.str "small" →
      ¬ v = JSVal.str "large" → mapMargin v = "30px") ∧
    (∀ v : JSVal, marginMap v = none → marginLookup v = "0.5in") := by
  refine ⟨?_, ?_, ?_, ?_, ?_⟩
  · intro s h; simp [buildPdfOptions, h]
  · intro s h; simp [buildPdfOptions, h]
  · intro s h; simp [buildPdfOptions, h]
  · intro v h1 h2 h3; unfold mapMargin; rw [if_neg h1, if_neg h2, if_neg h3]
  · intro v h; unfold marginLookup; rw [h]

/-- C7 (witness). -/
theorem C7_witness :
    truthy ({} : Settings).pageSize = false ∧
    (buildPdfOptions {}).format = JSVal.str "A4" ∧
    mapMargin (JSVal.str "weird") = "30px" :=
  ⟨by decide, C7_amended.1 {} (by decide),
    C7_amended.2.2.2.1 (JSVal.str "weird") (by decide) (by decide) (by decide)⟩

/-- C8.  In `src/server.js` (which mounts the any-field multipart parser), a
file-mode request is handled exactly as if it carried only its first
uploaded file: extra files are ignored, the field name of the file is
irrelevant to the outcome, and a concrete two-file request under ad-hoc
field names is not rejected — it converts successfully. -/
theorem C8_first_file_wins (env : Env) (u : String) (ss : SettingsStr)
    (f : UploadedFile) (rest : List UploadedFile) (name : String) :
    handleConvert env ⟨"file", u, ss, f :: rest⟩ =
      handleConvert env ⟨"file", u, ss, [f]⟩ ∧
    handleConvert env ⟨"file", u, ss, ⟨name, f.buffer⟩ :: rest⟩ =
      handleConvert env ⟨"file", u, ss, [f]⟩ ∧
    (handleConvert envAllOk reqTwoFiles).response.status = 200 := by
  cases env; cases f; exact ⟨rfl, rfl, by decide⟩

/-- C9.  The settings translation is a pure function of the settings field
alone: any two requests carrying the same settings field — whatever their
type, URL or uploaded files — translate to the same renderer options record.
Determinism and absence of side effects are inherent: `buildPdfOptions` is a
total function with no state. -/
theorem C9_translator_deterministic (r1 r2 : Request)
    (h : r1.settingsStr = r2.settingsStr) :
    optionsOf r1 = optionsOf r2 := by
  unfold optionsOf; rw [h]

/-- C9 (witness): a url-mode and a file-mode request with the same settings
field translate to the same options. -/
theorem C9_witness :
    reqUrlOk.settingsStr = reqTwoFiles.settingsStr ∧
    optionsOf reqUrlOk = optionsOf reqTwoFiles :=
  ⟨rfl, C9_translator_deterministic reqUrlOk reqTwoFiles rfl⟩

/-- C10.  `mapMargin` is total by construction and, for every possible
input — undefined, null, numbers, booleans, and arbitrary strings — returns
one of its four fixed CSS length strings (and the revision-5 mapper likewise
returns one of its four), so building the four-sided margin record of the
print options never raises an error. -/
theorem C10_mapMargin_total (v : JSVal) :
    (mapMargin v = "0px" ∨ mapMargin v = "20px" ∨
      mapMargin v = "50px" ∨ mapMargin v = "30px") ∧
    (mapMarginRev5 v = "0px" ∨ mapMarginRev5 v = "15px" ∨
      mapMarginRev5 v = "50px" ∨ mapMarginRev5 v = "25px") ∧
    (∀ s : Settings, (buildPdfOptions s).margin =
      { top := mapMargin s.margins, right := mapMargin s.margins,
        bottom := mapMargin s.margins, left := mapMargin s.margins }) := by
  refine ⟨?_, ?_, fun s => rfl⟩
  · unfold mapMargin; split_ifs <;> simp
  · unfold mapMarginRev5; split_ifs <;> simp

end Aservus
